import Mathlib

/-!
Shallow embedding of the UDS data-frame codec and crypto layer
(src/core/hle/service/nwm/uds_data.cpp).

Bytes are modelled as natural numbers; byte buffers as lists of naturals.
External collaborators scoped out by the specification (the CCM crypto
engine, the AES-CTR primitive, the MD5 digest and the key-storage
subsystem) are passed in as abstract functions, matching the collaborator
interfaces of the specification.  Structure layouts that live in header
files absent from the sources (uds_data.h, nwm_uds.h) are modelled from
the specification and marked as such.
-/

namespace UdsData

/-- Serialization of a 16-bit big-endian field (u16_be): high byte first.
Values wider than 16 bits are truncated, as assignment to a u16 field is. -/
def u16be (v : Nat) : List Nat := [(v >>> 8) &&& 0xFF, v &&& 0xFF]

/-- Recomposition of a 16-bit big-endian field from its two bytes. -/
def be16 (hi lo : Nat) : Nat := hi * 256 + lo

/-- Copy of a byte sequence into a zero-initialized fixed-width buffer of
n bytes: shorter inputs are zero-padded, longer inputs are cut. -/
def fitBytes (n : Nat) (xs : List Nat) : List Nat :=
  (xs ++ List.replicate n 0).take n

/-- An all-zero payload of n bytes, used for concrete large inputs. -/
def zeros (n : Nat) : List Nat := List.replicate n 0

/-- Modelled from the spec: the LLC/SNAP header layout (uds_data.h is not
among the sources).  Fixed SNAP prelude bytes (DSAP, SSAP, control, OUI)
followed by the 2-byte big-endian protocol tag, 8 bytes in total. -/
def LLCHeaderSize : Nat := 8

/-- Modelled from the spec: SecureDataHeader wire size.  Fields, in order:
2B protocolSize, 2B secureDataSize, 1B flags (bit0 = isManagement),
1B dataChannel, 2B sequenceNumber, 2B destNodeId, 2B srcNodeId. -/
def SecureDataHeaderSize : Nat := 12

/-- Modelled from the spec: EtherType tag for SecureData frames. -/
def EtherTypeSecureData : Nat := 0x876D

/-- Modelled from the spec: EtherType tag for EAPoL frames. -/
def EtherTypeEAPoL : Nat := 0x888E

/-- GenerateLLCHeader: a SNAP-enabled 802.2 LLC header for the given
protocol (uds_data.cpp lines 26 to 34). -/
def GenerateLLCHeader (protocol : Nat) : List Nat :=
  [0xAA, 0xAA, 0x03, 0, 0, 0] ++ u16be protocol

/-- The parsed SecureData header record. -/
structure SecureDataHeader where
  protocol_size : Nat
  securedata_size : Nat
  is_management : Nat
  data_channel : Nat
  sequence_number : Nat
  dest_node_id : Nat
  src_node_id : Nat
deriving Repr, DecidableEq

/-- GenerateSecureDataHeader (uds_data.cpp lines 40 to 59): protocol_size
is data_size plus the header size, securedata_size is that minus 4, the
management flag is always 0.  The u16 fields truncate via u16be. -/
def GenerateSecureDataHeader (data_size channel dest_node_id src_node_id
    sequence_number : Nat) : List Nat :=
  u16be (data_size + SecureDataHeaderSize)
    ++ u16be (data_size + SecureDataHeaderSize - 4)
    ++ [0]
    ++ [channel &&& 0xFF]
    ++ u16be sequence_number
    ++ u16be dest_node_id
    ++ u16be src_node_id

/-- GenerateDataPayload (uds_data.cpp lines 269 to 278): LLC header,
SecureData header, then the data.  The payload size is truncated to u16
by the static cast at the call site. -/
def GenerateDataPayload (data : List Nat) (channel dest_node src_node
    sequence_number : Nat) : List Nat :=
  GenerateLLCHeader EtherTypeSecureData
    ++ GenerateSecureDataHeader (data.length % 65536) channel dest_node
        src_node sequence_number
    ++ data

/-- ParseSecureDataHeader (uds_data.cpp lines 280 to 287): reads the
header right after the LLC header.  The source performs an unchecked
memcpy; the none result marks exactly the inputs on which that memcpy
would read past the end of the buffer (undefined behavior in the source,
there is no length check and no TruncatedFrame error path). -/
def ParseSecureDataHeader (data : List Nat) : Option SecureDataHeader :=
  match data with
  | _ :: _ :: _ :: _ :: _ :: _ :: _ :: _ ::
    b0 :: b1 :: b2 :: b3 :: b4 :: b5 :: b6 :: b7 :: b8 :: b9 :: b10 :: b11 :: _ =>
    some { protocol_size := be16 b0 b1,
           securedata_size := be16 b2 b3,
           is_management := b4,
           data_channel := b5,
           sequence_number := be16 b6 b7,
           dest_node_id := be16 b8 b9,
           src_node_id := be16 b10 b11 }
  | _ => none

/-- GetFrameEtherType (uds_data.cpp lines 311 to 315): reads the LLC
protocol field at offset 6.  The source performs an unchecked memcpy of
the whole LLC header; the none result marks exactly the inputs on which
that memcpy would read past the end of the buffer (undefined behavior in
the source, there is no length check and no TruncatedFrame error path). -/
def GetFrameEtherType (frame : List Nat) : Option Nat :=
  match frame with
  | _ :: _ :: _ :: _ :: _ :: _ :: p0 :: p1 :: _ => some (be16 p0 p1)
  | _ => none

/-- Modelled from the spec: NetworkInfo (nwm_uds.h is not among the
sources).  Only the four fields used for key derivation are kept, each
as its wire-byte sequence. -/
structure NetworkInfo where
  host_mac_address : List Nat
  wlan_comm_id : List Nat
  id : List Nat
  network_id : List Nat

/-- GetDataCryptoCTR (uds_data.cpp lines 66 to 79): the digest of the
DataFrameCryptoCTR structure, whose fields are, in order and with no
padding between them, the host MAC address, the wireless community id,
the instantiation id and the network id.  The digest function (MD5) is
an external collaborator and is passed in abstractly. -/
def GetDataCryptoCTR (digest16 : List Nat → List Nat)
    (network_info : NetworkInfo) : List Nat :=
  digest16 (network_info.host_mac_address ++ network_info.wlan_comm_id
    ++ network_info.id ++ network_info.network_id)

/-- The fixed key slot dedicated to UDS data encryption (keyslot 0x2D). -/
def UDSDataKeySlot : Nat := 0x2D

/-- GenerateDataCCMPKey (uds_data.cpp lines 85 to 104): hash the
passphrase, fetch the normal key for the UDS data key slot, then encrypt
the passphrase hash with AES-CTR under that key using the data crypto
CTR as the initial counter block.  The digest, the AES-CTR encryption
(key, counter, data) and the key storage are external collaborators. -/
def GenerateDataCCMPKey (digest16 : List Nat → List Nat)
    (aesCtrEncrypt : List Nat → List Nat → List Nat → List Nat)
    (getNormalKey : Nat → List Nat)
    (passphrase : List Nat) (network_info : NetworkInfo) : List Nat :=
  let passphrase_hash := digest16 passphrase
  let counter := GetDataCryptoCTR digest16 network_info
  let key := getNormalKey UDSDataKeySlot
  aesCtrEncrypt key counter passphrase_hash

/-- The key-derivation chain exactly as the specification words it: the
CCMP key is the AES-CTR encryption of the passphrase digest under the
normal key of the UDS data key slot, with the digest of host MAC,
wireless community id, instantiation id and network id, concatenated in
that order with no padding, as the initial counter block. -/
def deriveDataKeySpec (digest16 : List Nat → List Nat)
    (aesCtrEncrypt : List Nat → List Nat → List Nat → List Nat)
    (getNormalKey : Nat → List Nat)
    (passphrase : List Nat) (network_info : NetworkInfo) : List Nat :=
  aesCtrEncrypt (getNormalKey UDSDataKeySlot)
    (digest16 (network_info.host_mac_address ++ network_info.wlan_comm_id
      ++ network_info.id ++ network_info.network_id))
    (digest16 passphrase)

/-- The frame-control mask applied when building the AAD. -/
def AADFrameControlMask : Nat := 0x8FC7

/-- A zero-initialized 6-byte MAC address field. -/
def zeroMac : List Nat := [0, 0, 0, 0, 0, 0]

/-- GenerateCCMPAAD (uds_data.cpp lines 110 to 154): masked frame
control, three address fields chosen by the to-DS (bit 0) and from-DS
(bit 1) bits, and a zero sequence-control field.  The fatal assertion
ASSERT_MSG(to_ds != from_ds) is modelled by the none result: the process
aborts instead of producing an AAD. -/
def GenerateCCMPAAD (sender receiver bssid : List Nat)
    (frame_control : Nat) : Option (List Nat) :=
  let FC := frame_control &&& AADFrameControlMask
  let to_ds : Bool := frame_control &&& 1 != 0
  let from_ds : Bool := frame_control &&& 2 != 0
  if to_ds == from_ds then none
  else
    let a0 := (zeroMac, zeroMac, zeroMac)
    let a1 := if from_ds then (receiver, bssid, sender) else a0
    let a2 := if to_ds then (bssid, sender, receiver) else a1
    some (u16be FC ++ a2.1 ++ a2.2.1 ++ a2.2.2 ++ u16be 0)

/-- Closed form of the AAD bytes produced under the addressing
precondition: masked frame control, the three addresses in the order
dictated by the from-DS bit, and a zero sequence-control field. -/
def dataFrameAAD (sender receiver bssid : List Nat)
    (frame_control : Nat) : List Nat :=
  u16be (frame_control &&& AADFrameControlMask)
    ++ (if frame_control &&& 2 != 0 then receiver ++ bssid ++ sender
        else bssid ++ sender ++ receiver)
    ++ u16be 0

/-- The CCM nonce built by EncryptDataFrame (uds_data.cpp lines 228 to
239): a zero priority byte, the sender address, then the packet number
whose last two bytes hold the sequence number big-endian. -/
def encryptNonce (sender : List Nat) (sequence_number : Nat) : List Nat :=
  let packet_number := [0, 0, 0, 0,
    (sequence_number >>> 8) &&& 0xFF, sequence_number &&& 0xFF]
  0 :: (sender ++ packet_number)

/-- The CCM nonce built by DecryptDataFrame (uds_data.cpp lines 169 to
180), transcribed separately because the source duplicates the code. -/
def decryptNonce (sender : List Nat) (sequence_number : Nat) : List Nat :=
  let packet_number := [0, 0, 0, 0,
    (sequence_number >>> 8) &&& 0xFF, sequence_number &&& 0xFF]
  0 :: (sender ++ packet_number)

/-- The external CCM crypto engine, at the collaborator interface the
specification gives it: encrypt and decrypt take key, nonce, AAD, data
and tag length; a none result stands for the engine raising an
exception (authentication failure included). -/
structure CCMEngine where
  encrypt : List Nat → List Nat → List Nat → List Nat → Nat → Option (List Nat)
  decrypt : List Nat → List Nat → List Nat → List Nat → Nat → Option (List Nat)

/-- A lawful engine decrypts what it encrypted, under the same key,
nonce, AAD and tag length, back to the original data. -/
def CCMEngine.Lawful (e : CCMEngine) : Prop :=
  ∀ key nonce aad plain tagLen cipher,
    e.encrypt key nonce aad plain tagLen = some cipher →
    e.decrypt key nonce aad cipher tagLen = some plain

/-- Result of an encrypt or decrypt call: the returned bytes together
with the messages sent to the logging collaborator. -/
structure FrameResult where
  data : List Nat
  log : List String
deriving Repr, DecidableEq

/-- The CCM authentication tag length used for data frames (8 bytes). -/
def CCMTagSize : Nat := 8

/-- EncryptDataFrame (uds_data.cpp lines 220 to 267): build the AAD (the
fatal assertion inside it aborts, none), build the nonce, run the
engine; an engine exception is caught, logged and turned into an empty
result. -/
def EncryptDataFrame (eng : CCMEngine)
    (payload ccmp_key sender receiver bssid : List Nat)
    (sequence_number frame_control : Nat) : Option FrameResult :=
  match GenerateCCMPAAD sender receiver bssid frame_control with
  | none => none
  | some aad =>
    match eng.encrypt ccmp_key (encryptNonce sender sequence_number) aad
        payload CCMTagSize with
    | some cipher => some { data := cipher, log := [] }
    | none => some { data := [], log := ["failed to encrypt"] }

/-- DecryptDataFrame (uds_data.cpp lines 160 to 214): build the AAD (the
fatal assertion inside it aborts, none), build the nonce, run the engine
in verify-and-decrypt mode; an engine exception (tag mismatch, truncated
input) is caught, logged and turned into an empty result. -/
def DecryptDataFrame (eng : CCMEngine)
    (encrypted_payload ccmp_key sender receiver bssid : List Nat)
    (sequence_number frame_control : Nat) : Option FrameResult :=
  match GenerateCCMPAAD sender receiver bssid frame_control with
  | none => none
  | some aad =>
    match eng.decrypt ccmp_key (decryptNonce sender sequence_number) aad
        encrypted_payload CCMTagSize with
    | some pdata => some { data := pdata, log := [] }
    | none => some { data := [], log := ["failed to decrypt"] }

/-- A concrete lawful engine used to instantiate theorems: the cipher is
the plaintext followed by a tag of sevens, and decryption checks and
strips that tag. -/
def toyEngine : CCMEngine where
  encrypt := fun _ _ _ plain tagLen => some (plain ++ List.replicate tagLen 7)
  decrypt := fun _ _ _ cipher tagLen =>
    if tagLen ≤ cipher.length ∧
        cipher.drop (cipher.length - tagLen) = List.replicate tagLen 7
    then some (cipher.take (cipher.length - tagLen))
    else none

/-- A concrete engine whose every call raises, used to instantiate the
error-handling theorems. -/
def failEngine : CCMEngine where
  encrypt := fun _ _ _ _ _ => none
  decrypt := fun _ _ _ _ _ => none

/-- Modelled from the spec: a peer identity record (nwm_uds.h is not
among the sources).  Friend-code seed and username are kept as wire-byte
sequences; the network node id as a number. -/
structure NodeInfo where
  friend_code_seed : List Nat
  username : List Nat
  network_node_id : Nat
deriving Repr, DecidableEq

/-- Modelled from the spec: the fixed username buffer width in bytes. -/
def usernameSize : Nat := 20

/-- Modelled from the spec: the node record embedded in EAPoL packets,
serialized as 8 bytes of friend-code seed, the fixed-width username
buffer, then the 2-byte network node id. -/
structure EAPoLNodeInfo where
  friend_code_seed : List Nat
  username : List Nat
  network_node_id : Nat
deriving Repr, DecidableEq

/-- Modelled from the spec: the EAPoL-Start packet, a fixed type tag,
the 2-byte association id, then the embedded node record. -/
structure EAPoLStartPacket where
  magic : Nat
  association_id : Nat
  node : EAPoLNodeInfo
deriving Repr, DecidableEq

/-- Modelled from the spec: the fixed EAPoL-Start type tag. -/
def EAPoLStartMagic : Nat := 0x0201

/-- Serialization of the embedded node record. -/
def serializeEAPoLNodeInfo (n : EAPoLNodeInfo) : List Nat :=
  fitBytes 8 n.friend_code_seed ++ fitBytes usernameSize n.username
    ++ u16be n.network_node_id

/-- Serialization of an EAPoL-Start packet. -/
def serializeEAPoLStartPacket (p : EAPoLStartPacket) : List Nat :=
  u16be p.magic ++ u16be p.association_id ++ serializeEAPoLNodeInfo p.node

/-- GenerateEAPoLStartFrame (uds_data.cpp lines 289 to 309): the packet
is zero-initialized, then only the association id, the friend-code seed
and the username are filled in; the network node id of the embedded node
record keeps its zero initialization. -/
def GenerateEAPoLStartFrame (association_id : Nat)
    (node_info : NodeInfo) : List Nat :=
  let eapol_start : EAPoLStartPacket :=
    { magic := EAPoLStartMagic,
      association_id := association_id,
      node := { friend_code_seed := node_info.friend_code_seed,
                username := node_info.username,
                network_node_id := 0 } }
  GenerateLLCHeader EtherTypeEAPoL ++ serializeEAPoLStartPacket eapol_start

/-- DeserializeNodeInfoFromFrame (uds_data.cpp lines 324 to 337): the
EAPoL-Start packet is read from right after the LLC header (the source
memcpy is unchecked; missing bytes read as zero here), then a
zero-initialized NodeInfo receives only the friend-code seed and the
username; its network node id keeps its zero initialization even though
the frame carries a network node id field. -/
def DeserializeNodeInfoFromFrame (frame : List Nat) : NodeInfo :=
  let p := frame.drop LLCHeaderSize
  let eapol_start : EAPoLStartPacket :=
    { magic := be16 (p.getD 0 0) (p.getD 1 0),
      association_id := be16 (p.getD 2 0) (p.getD 3 0),
      node := { friend_code_seed := fitBytes 8 (p.drop 4),
                username := fitBytes usernameSize (p.drop 12),
                network_node_id :=
                  be16 (p.getD (12 + usernameSize) 0)
                       (p.getD (13 + usernameSize) 0) } }
  let node : NodeInfo :=
    { friend_code_seed := eapol_start.node.friend_code_seed,
      username := eapol_start.node.username,
      network_node_id := 0 }
  node

/-! Helper lemmas shared by several claim proofs. -/

lemma zeros_length (n : Nat) : (zeros n).length = n := by
  simp [zeros]

lemma and255 (x : Nat) : x &&& 0xFF = x % 256 := by
  have h := Nat.and_pow_two_sub_one_eq_mod x 8
  norm_num at h
  exact h

lemma be16_mod (v : Nat) : be16 ((v >>> 8) % 256) (v % 256) = v % 65536 := by
  have h : v >>> 8 = v / 256 := by
    rw [Nat.shiftRight_eq_div_pow]
  unfold be16
  rw [h]
  omega

/-- The parse-of-build closed form: parsing always succeeds on a built
frame and recovers every field reduced to its wire width. -/
lemma parse_generate (data : List Nat) (ch dest src seq : Nat) :
    ParseSecureDataHeader (GenerateDataPayload data ch dest src seq) =
      some { protocol_size := (data.length % 65536 + SecureDataHeaderSize) % 65536,
             securedata_size :=
               (data.length % 65536 + SecureDataHeaderSize - 4) % 65536,
             is_management := 0,
             data_channel := ch % 256,
             sequence_number := seq % 65536,
             dest_node_id := dest % 65536,
             src_node_id := src % 65536 } := by
  simp only [GenerateDataPayload, GenerateLLCHeader, GenerateSecureDataHeader,
    u16be, List.cons_append, List.nil_append, List.append_assoc,
    ParseSecureDataHeader, and255, be16_mod]

/-- GenerateCCMPAAD as a single conditional over the two addressing
bits. -/
lemma aad_eq_ite (sender receiver bssid : List Nat) (fc : Nat) :
    GenerateCCMPAAD sender receiver bssid fc =
      (if ((fc &&& 1 != 0) == (fc &&& 2 != 0)) = true then none
       else some (dataFrameAAD sender receiver bssid fc)) := by
  unfold GenerateCCMPAAD dataFrameAAD
  cases h1 : (fc &&& 1 != 0) <;> cases h2 : (fc &&& 2 != 0) <;>
    simp [h1, h2, List.append_assoc]

/-- Under the addressing precondition the AAD is produced and has the
closed form dataFrameAAD. -/
lemma aad_some (sender receiver bssid : List Nat) (fc : Nat)
    (h : (fc &&& 1 != 0) ≠ (fc &&& 2 != 0)) :
    GenerateCCMPAAD sender receiver bssid fc =
      some (dataFrameAAD sender receiver bssid fc) := by
  have hb : ((fc &&& 1 != 0) == (fc &&& 2 != 0)) = false := by
    cases h1 : (fc &&& 1 != 0) <;> cases h2 : (fc &&& 2 != 0) <;> simp_all
  rw [aad_eq_ite, hb]
  simp

lemma nonce_eq (sender : List Nat) (seq : Nat) :
    decryptNonce sender seq = encryptNonce sender seq := rfl

lemma toyEngine_lawful : toyEngine.Lawful := by
  intro key nonce aad plain tagLen cipher hc
  simp only [toyEngine, Option.some.injEq] at hc
  subst hc
  have hl : (plain ++ List.replicate tagLen 7).length - tagLen = plain.length := by
    simp
  simp [toyEngine, hl, List.drop_left, List.take_left]

/-- C1: for every payload, CCMP key, sender, receiver and bssid address,
sequence number and frame control with exactly one of the to-DS (bit 0)
and from-DS (bit 1) bits set, DecryptDataFrame applied to the output of
EncryptDataFrame with the same key, addresses, sequence number and frame
control returns the original payload.  The external CCM engine is any
lawful engine whose encryption succeeded on the frame. -/
theorem C1_encrypt_decrypt_roundtrip (eng : CCMEngine) (hL : eng.Lawful)
    (payload ccmp_key sender receiver bssid : List Nat) (seq fc : Nat)
    (hds : (fc &&& 1 != 0) ≠ (fc &&& 2 != 0))
    (cipher : List Nat)
    (hc : eng.encrypt ccmp_key (encryptNonce sender seq)
      (dataFrameAAD sender receiver bssid fc) payload CCMTagSize = some cipher) :
    EncryptDataFrame eng payload ccmp_key sender receiver bssid seq fc =
      some { data := cipher, log := [] } ∧
    DecryptDataFrame eng cipher ccmp_key sender receiver bssid seq fc =
      some { data := payload, log := [] } := by
  have ha := aad_some sender receiver bssid fc hds
  have hd := hL _ _ _ _ _ _ hc
  constructor
  · unfold EncryptDataFrame
    rw [ha]
    simp only [hc]
  · unfold DecryptDataFrame
    rw [ha]
    simp only [nonce_eq, hd]

/-- Witness for C1 at a concrete lawful engine and concrete inputs. -/
theorem C1_witness :
    EncryptDataFrame toyEngine [1, 2, 3] [9] [1, 1, 1, 1, 1, 1]
        [2, 2, 2, 2, 2, 2] [3, 3, 3, 3, 3, 3] 5 1 =
      some { data := [1, 2, 3, 7, 7, 7, 7, 7, 7, 7, 7], log := [] } ∧
    DecryptDataFrame toyEngine [1, 2, 3, 7, 7, 7, 7, 7, 7, 7, 7] [9]
        [1, 1, 1, 1, 1, 1] [2, 2, 2, 2, 2, 2] [3, 3, 3, 3, 3, 3] 5 1 =
      some { data := [1, 2, 3], log := [] } :=
  C1_encrypt_decrypt_roundtrip toyEngine toyEngine_lawful [1, 2, 3] [9]
    [1, 1, 1, 1, 1, 1] [2, 2, 2, 2, 2, 2] [3, 3, 3, 3, 3, 3] 5 1 (by decide)
    [1, 2, 3, 7, 7, 7, 7, 7, 7, 7, 7] (by decide)

/-- C2 (amended): for every payload whose length plus the 12-byte
SecureData header size still fits the 16-bit size field, and channel,
node ids and sequence number within their u8 and u16 ranges, parsing the
SecureData header out of the frame produced by GenerateDataPayload
recovers protocol_size = payloadLength + SecureDataHeaderSize,
securedata_size = protocol_size - 4, is_management = 0, and exactly the
channel, sequence number and node ids that were supplied. -/
theorem C2_parse_build_roundtrip (data : List Nat) (ch dest src seq : Nat)
    (hdata : data.length + SecureDataHeaderSize < 65536)
    (hch : ch < 256) (hdest : dest < 65536) (hsrc : src < 65536)
    (hseq : seq < 65536) :
    ParseSecureDataHeader (GenerateDataPayload data ch dest src seq) =
      some { protocol_size := data.length + SecureDataHeaderSize,
             securedata_size := data.length + SecureDataHeaderSize - 4,
             is_management := 0,
             data_channel := ch,
             sequence_number := seq,
             dest_node_id := dest,
             src_node_id := src } := by
  rw [parse_generate]
  simp only [SecureDataHeaderSize] at *
  simp only [Option.some.injEq, SecureDataHeader.mk.injEq]
  refine ⟨by omega, by omega, by trivial, by omega, by omega, by omega, by omega⟩

/-- Witness for C2 at concrete inputs. -/
theorem C2_witness :
    ParseSecureDataHeader (GenerateDataPayload [1, 2] 1 2 3 4) =
      some { protocol_size := 14, securedata_size := 10, is_management := 0,
             data_channel := 1, sequence_number := 4, dest_node_id := 2,
             src_node_id := 3 } := by
  simpa using C2_parse_build_roundtrip [1, 2] 1 2 3 4 (by decide) (by decide)
    (by decide) (by decide) (by decide)

/-- C2 counterexample to the claim as stated: the payload length 65524
fits the 16-bit size field, yet the recovered protocol_size is 0, not
payloadLength + SecureDataHeaderSize = 65536, because the u16 header
field wraps. -/
theorem C2_counterexample :
    ParseSecureDataHeader (GenerateDataPayload (zeros 65524) 1 2 3 4) =
      some { protocol_size := 0, securedata_size := 65532, is_management := 0,
             data_channel := 1, sequence_number := 4, dest_node_id := 2,
             src_node_id := 3 } ∧
    (zeros 65524).length < 65536 ∧
    (0 : Nat) ≠ (zeros 65524).length + SecureDataHeaderSize := by
  refine ⟨(parse_generate (zeros 65524) 1 2 3 4).trans ?_, ?_, ?_⟩
  · rw [zeros_length]
    norm_num [SecureDataHeaderSize]
  · rw [zeros_length]
    norm_num
  · rw [zeros_length]
    norm_num [SecureDataHeaderSize]

/-- C3: under the addressing precondition, GenerateCCMPAAD returns
exactly 22 bytes: the 2-byte frame control masked with 0x8FC7, the three
6-byte address fields chosen by the addressing mode (from-DS set:
A1 = receiver, A2 = bssid, A3 = sender; to-DS set: A1 = bssid,
A2 = sender, A3 = receiver), and a 2-byte zero sequence-control field. -/
theorem C3_aad_layout (sender receiver bssid : List Nat) (fc : Nat)
    (hs : sender.length = 6) (hr : receiver.length = 6)
    (hb : bssid.length = 6)
    (hds : (fc &&& 1 != 0) ≠ (fc &&& 2 != 0)) :
    GenerateCCMPAAD sender receiver bssid fc =
      some (u16be (fc &&& 0x8FC7)
        ++ (if fc &&& 2 != 0 then receiver ++ bssid ++ sender
            else bssid ++ sender ++ receiver)
        ++ u16be 0) ∧
    (dataFrameAAD sender receiver bssid fc).length = 22 := by
  constructor
  · rw [aad_some sender receiver bssid fc hds]
    rfl
  · cases h2 : (fc &&& 2 != 0) <;>
      simp [dataFrameAAD, u16be, h2, hs, hr, hb]

/-- Witness for C3 at concrete inputs (from-DS set). -/
theorem C3_witness :
    GenerateCCMPAAD [1, 1, 1, 1, 1, 1] [2, 2, 2, 2, 2, 2] [3, 3, 3, 3, 3, 3]
        2 =
      some [0, 2, 2, 2, 2, 2, 2, 2, 3, 3, 3, 3, 3, 3, 1, 1, 1, 1, 1, 1, 0, 0] ∧
    (dataFrameAAD [1, 1, 1, 1, 1, 1] [2, 2, 2, 2, 2, 2] [3, 3, 3, 3, 3, 3]
        2).length = 22 :=
  ⟨((C3_aad_layout [1, 1, 1, 1, 1, 1] [2, 2, 2, 2, 2, 2] [3, 3, 3, 3, 3, 3] 2
      (by decide) (by decide) (by decide) (by decide)).1).trans (by decide),
   (C3_aad_layout [1, 1, 1, 1, 1, 1] [2, 2, 2, 2, 2, 2] [3, 3, 3, 3, 3, 3] 2
      (by decide) (by decide) (by decide) (by decide)).2⟩

/-- C4: for every passphrase and network info, the derived CCMP data key
is the AES-CTR encryption of the passphrase digest under the normal key
of the fixed UDS data key slot, with the digest of host MAC, wireless
community id, instantiation id and network id, concatenated in that
field order with no padding, as the initial counter block.  The digest,
the AES-CTR primitive and the key storage are the external collaborators
of the specification, quantified over. -/
theorem C4_key_derivation_chain (digest16 : List Nat → List Nat)
    (aesCtrEncrypt : List Nat → List Nat → List Nat → List Nat)
    (getNormalKey : Nat → List Nat) (passphrase : List Nat)
    (network_info : NetworkInfo) :
    GenerateDataCCMPKey digest16 aesCtrEncrypt getNormalKey passphrase
        network_info =
      deriveDataKeySpec digest16 aesCtrEncrypt getNormalKey passphrase
        network_info := rfl

/-- C5: for every sender address and sequence number the nonces built by
EncryptDataFrame and DecryptDataFrame are identical and are exactly 13
bytes: a zero priority byte, the 6-byte sender address, then a 6-byte
packet number whose first four bytes are zero and whose last two bytes
are the sequence number in big-endian order. -/
theorem C5_nonce_layout (sender : List Nat) (seq : Nat)
    (hs : sender.length = 6) :
    encryptNonce sender seq = decryptNonce sender seq ∧
    encryptNonce sender seq =
      0 :: (sender ++ [0, 0, 0, 0, (seq >>> 8) &&& 0xFF, seq &&& 0xFF]) ∧
    (encryptNonce sender seq).length = 13 := by
  refine ⟨rfl, rfl, ?_⟩
  simp [encryptNonce, hs]

/-- Witness for C5 at concrete inputs. -/
theorem C5_witness :
    encryptNonce [4, 5, 6, 7, 8, 9] 0x1234 = decryptNonce [4, 5, 6, 7, 8, 9] 0x1234 ∧
    encryptNonce [4, 5, 6, 7, 8, 9] 0x1234 =
      0 :: ([4, 5, 6, 7, 8, 9] ++ [0, 0, 0, 0, (0x1234 >>> 8) &&& 0xFF,
        0x1234 &&& 0xFF]) ∧
    (encryptNonce [4, 5, 6, 7, 8, 9] 0x1234).length = 13 :=
  C5_nonce_layout [4, 5, 6, 7, 8, 9] 0x1234 (by decide)

/-- C6: GenerateCCMPAAD, and hence EncryptDataFrame and DecryptDataFrame
which call it, hit the fatal assertion (modelled by none) exactly when
the to-DS and from-DS bits agree, and produce a result whenever exactly
one of them is set. -/
theorem C6_addressing_assert (eng : CCMEngine)
    (payload ccmp_key sender receiver bssid : List Nat) (seq fc : Nat) :
    (GenerateCCMPAAD sender receiver bssid fc).isNone =
      ((fc &&& 1 != 0) == (fc &&& 2 != 0)) ∧
    (EncryptDataFrame eng payload ccmp_key sender receiver bssid seq
        fc).isNone = ((fc &&& 1 != 0) == (fc &&& 2 != 0)) ∧
    (DecryptDataFrame eng payload ccmp_key sender receiver bssid seq
        fc).isNone = ((fc &&& 1 != 0) == (fc &&& 2 != 0)) := by
  have h := aad_eq_ite sender receiver bssid fc
  refine ⟨?_, ?_, ?_⟩
  · rw [h]
    cases hb : ((fc &&& 1 != 0) == (fc &&& 2 != 0)) <;> simp [hb]
  · unfold EncryptDataFrame
    rw [h]
    cases hb : ((fc &&& 1 != 0) == (fc &&& 2 != 0))
    · simp only [hb, Bool.false_eq_true, if_false]
      cases eng.encrypt ccmp_key (encryptNonce sender seq)
        (dataFrameAAD sender receiver bssid fc) payload CCMTagSize <;> simp
    · simp [hb]
  · unfold DecryptDataFrame
    rw [h]
    cases hb : ((fc &&& 1 != 0) == (fc &&& 2 != 0))
    · simp only [hb, Bool.false_eq_true, if_false]
      cases eng.decrypt ccmp_key (decryptNonce sender seq)
        (dataFrameAAD sender receiver bssid fc) payload CCMTagSize <;> simp
    · simp [hb]

/-- C7: under the addressing precondition, whenever the external engine
fails (raises) during decryption the operation logs and returns the
empty byte sequence, and likewise for encryption; no engine failure
escapes either operation. -/
theorem C7_failures_absorbed (eng : CCMEngine)
    (ccmp_key sender receiver bssid : List Nat) (seq fc : Nat)
    (hds : (fc &&& 1 != 0) ≠ (fc &&& 2 != 0)) :
    (∀ enc, eng.decrypt ccmp_key (decryptNonce sender seq)
        (dataFrameAAD sender receiver bssid fc) enc CCMTagSize = none →
      DecryptDataFrame eng enc ccmp_key sender receiver bssid seq fc =
        some { data := [], log := ["failed to decrypt"] }) ∧
    (∀ p, eng.encrypt ccmp_key (encryptNonce sender seq)
        (dataFrameAAD sender receiver bssid fc) p CCMTagSize = none →
      EncryptDataFrame eng p ccmp_key sender receiver bssid seq fc =
        some { data := [], log := ["failed to encrypt"] }) := by
  have ha := aad_some sender receiver bssid fc hds
  constructor
  · intro enc hx
    unfold DecryptDataFrame
    rw [ha]
    simp only [hx]
  · intro p hx
    unfold EncryptDataFrame
    rw [ha]
    simp only [hx]

/-- Witness for C7 at a concrete always-failing engine. -/
theorem C7_witness :
    DecryptDataFrame failEngine [1, 2, 3] [9] [1, 1, 1, 1, 1, 1]
        [2, 2, 2, 2, 2, 2] [3, 3, 3, 3, 3, 3] 5 1 =
      some { data := [], log := ["failed to decrypt"] } ∧
    EncryptDataFrame failEngine [1, 2, 3] [9] [1, 1, 1, 1, 1, 1]
        [2, 2, 2, 2, 2, 2] [3, 3, 3, 3, 3, 3] 5 1 =
      some { data := [], log := ["failed to encrypt"] } :=
  ⟨(C7_failures_absorbed failEngine [9] [1, 1, 1, 1, 1, 1]
      [2, 2, 2, 2, 2, 2] [3, 3, 3, 3, 3, 3] 5 1 (by decide)).1 [1, 2, 3] rfl,
   (C7_failures_absorbed failEngine [9] [1, 1, 1, 1, 1, 1]
      [2, 2, 2, 2, 2, 2] [3, 3, 3, 3, 3, 3] 5 1 (by decide)).2 [1, 2, 3] rfl⟩

/-- C8: evaluation at the failing input.  On the empty frame both
ParseSecureDataHeader and GetFrameEtherType reach the unchecked memcpy
with too few bytes; the none result in this model marks that
out-of-bounds read.  The source contains no length check and no
TruncatedFrame error path, contradicting the claim. -/
theorem C8_unchecked_reads_eval :
    ParseSecureDataHeader [] = none ∧ GetFrameEtherType [] = none :=
  ⟨rfl, rfl⟩

/-- C9 (amended): GenerateSecureDataHeader and GenerateDataPayload never
reject a payload size: the size is truncated to 16 bits (the static cast
to u16 at the call site) and the header fields wrap modulo 2 to the 16,
so construction succeeds for every payload. -/
theorem C9_size_truncation (data : List Nat) (ch dest src seq : Nat) :
    ParseSecureDataHeader (GenerateDataPayload data ch dest src seq) =
      some { protocol_size :=
               (data.length % 65536 + SecureDataHeaderSize) % 65536,
             securedata_size :=
               (data.length % 65536 + SecureDataHeaderSize - 4) % 65536,
             is_management := 0,
             data_channel := ch % 256,
             sequence_number := seq % 65536,
             dest_node_id := dest % 65536,
             src_node_id := src % 65536 } :=
  parse_generate data ch dest src seq

/-- C9 counterexample to the claim as stated: a payload of 65536 bytes
exceeds the 16-bit size field, yet construction succeeds and yields a
well-formed frame whose sizes wrapped to those of an empty payload;
nothing fails with InvalidArgument. -/
theorem C9_counterexample :
    ParseSecureDataHeader (GenerateDataPayload (zeros 65536) 1 2 3 4) =
      some { protocol_size := 12, securedata_size := 8, is_management := 0,
             data_channel := 1, sequence_number := 4, dest_node_id := 2,
             src_node_id := 3 } ∧
    (zeros 65536).length > 65535 := by
  refine ⟨(parse_generate (zeros 65536) 1 2 3 4).trans ?_, ?_⟩
  · rw [zeros_length]
    norm_num [SecureDataHeaderSize]
  · rw [zeros_length]
    norm_num

/-- C10: the EAPoL-Start frame carries, after the LLC header and the
type and association-id fields, exactly the friend-code seed and the
username copied from the input node record followed by a zero network
node id field, whatever the network node id of the input was; and
DeserializeNodeInfoFromFrame returns a NodeInfo whose network node id is
zero for every frame. -/
theorem C10_network_node_id_zero (association_id : Nat)
    (node_info : NodeInfo) :
    (GenerateEAPoLStartFrame association_id node_info).drop 12 =
      fitBytes 8 node_info.friend_code_seed
        ++ fitBytes usernameSize node_info.username ++ [0, 0] ∧
    ∀ frame, (DeserializeNodeInfoFromFrame frame).network_node_id = 0 := by
  constructor
  · have hsplit : GenerateEAPoLStartFrame association_id node_info =
        (GenerateLLCHeader EtherTypeEAPoL ++ u16be EAPoLStartMagic
          ++ u16be association_id)
        ++ (fitBytes 8 node_info.friend_code_seed
          ++ fitBytes usernameSize node_info.username ++ u16be 0) := by
      simp [GenerateEAPoLStartFrame, serializeEAPoLStartPacket,
        serializeEAPoLNodeInfo, List.append_assoc]
    rw [hsplit, List.drop_left' (by simp [GenerateLLCHeader, u16be])]
    rfl
  · intro frame
    rfl

end UdsData
